import Mathlib

/-
Verification of the session state machine and context-compaction protocol of
src/server.py (a WebSocket bridge between a screen-automation client and a
vision model).  The coordinator (`websocket_endpoint`), the per-client
`AgentSession` and the `ConnectionManager` registry are embedded from the
source.  The helper module `phone_agent` (MessageBuilder, parse_action,
get_system_prompt) belongs to the repository but its source is not available
here; those leaves are modelled from the specification's description of the
Context Builder and the external collaborators.
-/

set_option autoImplicit false

/-- Modelled from the spec: a part of a conversation turn's content is either
text or an image reference (opaque encoded bytes). -/
inductive MsgPart where
  | text (s : String)
  | image (data : String)
deriving DecidableEq, Repr, Inhabited

/-- Role tag of a conversation turn. -/
inductive Role where
  | system
  | user
  | assistant
deriving DecidableEq, Repr, Inhabited

/-- A conversation turn: a role plus an ordered sequence of parts. -/
structure Message where
  role : Role
  content : List MsgPart
deriving DecidableEq, Repr, Inhabited

/-- True iff the part is a text part. -/
def MsgPart.isText : MsgPart → Bool
  | .text _ => true
  | .image _ => false

/-- True iff the message carries at least one image part. -/
def Message.hasImage (m : Message) : Bool :=
  m.content.any (fun p => !p.isText)

/-- Number of turns of a context that carry image data. -/
def imageTurnCount (ctx : List Message) : Nat :=
  (ctx.filter Message.hasImage).length

namespace MessageBuilder

/-- Modelled from the spec: `makeSystemTurn(prompt)` builds a turn with
role system and a single text part. -/
def create_system_message (prompt : String) : Message :=
  ⟨Role.system, [MsgPart.text prompt]⟩

/-- Modelled from the spec: `makeUserTurn(text, imageOrNone)` builds a turn with
role user; the text part is always present and an image part is present iff an
image was supplied. -/
def create_user_message (text : String) (image_base64 : Option String) : Message :=
  ⟨Role.user, MsgPart.text text ::
    (match image_base64 with
     | some img => [MsgPart.image img]
     | none => [])⟩

/-- Modelled from the spec: `makeAssistantTurn` produces a turn with role
assistant and a single text part (the caller in src/server.py formats the
thinking/answer tags into that text itself). -/
def create_assistant_message (text : String) : Message :=
  ⟨Role.assistant, [MsgPart.text text]⟩

/-- Modelled from the spec: `stripImages(turn)` returns the turn with all image
parts removed; text parts and their order are preserved. -/
def remove_images_from_message (m : Message) : Message :=
  ⟨m.role, m.content.filter MsgPart.isText⟩

end MessageBuilder

/-- Modelled from the spec: the system-prompt source `promptFor(locale)` is a
pure lookup external to src/server.py; no claim depends on the actual text. -/
def get_system_prompt (locale : String) : String :=
  "phone agent system prompt (" ++ locale ++ ")"

/-- SYSTEM_PROMPT from src/server.py line 28. -/
def SYSTEM_PROMPT : String := get_system_prompt "cn"

/-- Per-connection session state (src/server.py lines 30-38): a client id, the
ordered conversation context and the step counter. -/
structure AgentSession where
  client_id : String
  context : List Message
  step_count : Nat
deriving DecidableEq, Repr, Inhabited

/-- The AgentSession constructor (src/server.py lines 35-38): empty context,
step counter 0. -/
def AgentSession.mk0 (client_id : String) : AgentSession :=
  ⟨client_id, [], 0⟩

/-- AgentSession.init_session (src/server.py lines 40-56): reset the context to
the system turn followed by the first user turn (task text plus screen info and
the screenshot), and set the step counter to 1. -/
def AgentSession.init_session (s : AgentSession)
    (task screen_info screenshot_base64 : String) : AgentSession :=
  { s with
    step_count := 1,
    context :=
      [MessageBuilder.create_system_message SYSTEM_PROMPT,
       MessageBuilder.create_user_message
         (task ++ "\n\nScreen Info: " ++ screen_info) (some screenshot_base64)] }

/-- The compaction statement of step_session (src/server.py lines 64-65):
`if self.context: self.context[-1] = remove_images_from_message(self.context[-1])`,
that is, replace the last element by its image-stripped form when the list is
non-empty. -/
def compact_last : List Message → List Message
  | [] => []
  | [m] => [MessageBuilder.remove_images_from_message m]
  | m :: m2 :: rest => m :: compact_last (m2 :: rest)

/-- AgentSession.step_session (src/server.py lines 58-74): increment the step
counter, strip the images out of the last turn (when there is one), then append
a new user turn with the screen info text and the new screenshot. -/
def AgentSession.step_session (s : AgentSession)
    (screen_info screenshot_base64 : String) : AgentSession :=
  { s with
    step_count := s.step_count + 1,
    context :=
      compact_last s.context ++
        [MessageBuilder.create_user_message
          ("** Screen Info **\n\n" ++ screen_info) (some screenshot_base64)] }

/-- AgentSession.add_assistant_response (src/server.py lines 76-82): append an
assistant turn embedding the thinking and the action string. -/
def AgentSession.add_assistant_response (s : AgentSession)
    (thinking action_str : String) : AgentSession :=
  { s with
    context := s.context ++
      [MessageBuilder.create_assistant_message
        ("<think>" ++ thinking ++ "</think><answer>" ++ action_str ++ "</answer>")] }

/-- Lookup in an association list, mirroring python `dict.get`. -/
def lookupAssoc {α : Type} (k : String) : List (String × α) → Option α
  | [] => none
  | (k2, v) :: rest => if k2 = k then some v else lookupAssoc k rest

/-- Insertion in an association list, mirroring python `dict[k] = v`: an
existing entry for the key is overwritten in place, otherwise the entry is
appended. -/
def insertAssoc {α : Type} (k : String) (v : α) : List (String × α) → List (String × α)
  | [] => [(k, v)]
  | (k2, v2) :: rest =>
    if k2 = k then (k, v) :: rest else (k2, v2) :: insertAssoc k v rest

/-- Removal from an association list, mirroring python
`if k in dict: del dict[k]`. -/
def eraseAssoc {α : Type} (k : String) : List (String × α) → List (String × α)
  | [] => []
  | (k2, v2) :: rest =>
    if k2 = k then eraseAssoc k rest else (k2, v2) :: eraseAssoc k rest

/-- ConnectionManager (src/server.py lines 85-88): the registry mapping client
ids to connection handles (websockets, modelled as opaque Nat handles) and to
sessions. -/
structure ConnectionManager where
  active_connections : List (String × Nat)
  sessions : List (String × AgentSession)
deriving DecidableEq, Repr, Inhabited

/-- ConnectionManager.connect (src/server.py lines 90-94): store the websocket
handle and a fresh AgentSession under the client id (python dict assignment:
an existing entry is overwritten). -/
def ConnectionManager.connect (m : ConnectionManager)
    (websocket : Nat) (client_id : String) : ConnectionManager :=
  { active_connections := insertAssoc client_id websocket m.active_connections,
    sessions := insertAssoc client_id (AgentSession.mk0 client_id) m.sessions }

/-- ConnectionManager.disconnect (src/server.py lines 96-101): drop the client
id from both maps if present. -/
def ConnectionManager.disconnect (m : ConnectionManager)
    (client_id : String) : ConnectionManager :=
  { active_connections := eraseAssoc client_id m.active_connections,
    sessions := eraseAssoc client_id m.sessions }

/-- ConnectionManager.get_session (src/server.py lines 103-104). -/
def ConnectionManager.get_session (m : ConnectionManager)
    (client_id : String) : Option AgentSession :=
  lookupAssoc client_id m.sessions

/-- The reasoning engine's reply (`response.thinking`, `response.action`). -/
structure ModelResponse where
  thinking : String
  action : String
deriving DecidableEq, Repr, Inhabited

/-- The dictionary produced by parse_action, as observed by the coordinator:
only its `_metadata` and `message` entries matter to src/server.py (the
`finished` flag reads `_metadata`, and the synthesized finish value sets
`_metadata` and `message`). -/
structure ActionData where
  metadata : Option String
  message : Option String
deriving DecidableEq, Repr, Inhabited

/-- Oracles for the two external calls of the coordinator: the reasoning
engine `model_client.request` (which may raise) and the action string decoder
`parse_action` (which may raise ValueError, modelled as `Except.error ()`). -/
structure Externals where
  infer : List Message → Except String ModelResponse
  parse : String → Except Unit ActionData

/-- An incoming client message as read by src/server.py lines 125-127: the
declared type, the optional task, screenshot and screen_info fields. -/
structure IncomingData where
  type : Option String
  task : Option String
  screenshot : Option String
  screen_info : Option String
deriving DecidableEq, Repr, Inhabited

/-- A JSON payload sent back to the client: either the error form
`{"status": "error", "message": ...}` or the success form of src/server.py
lines 168-175. -/
inductive SendMsg where
  | error (message : String)
  | success (step : Nat) (thinking : String) (action : ActionData)
      (raw_response : String) (finished : Bool)
deriving DecidableEq, Repr, Inhabited

/-- True iff the payload is the success form. -/
def SendMsg.isSuccess : SendMsg → Bool
  | .error _ => false
  | .success _ _ _ _ _ => true

/-- Action-parsing step of the coordinator (src/server.py lines 158-162):
use the parsed dictionary, or on ValueError synthesize
`{"_metadata": "finish", "message": raw}`. -/
def parsedOrFinish (pr : Except Unit ActionData) (raw : String) : ActionData :=
  match pr with
  | .ok a => a
  | .error _ => ⟨some "finish", some raw⟩

/-- Validation and context update, sections 1-2 of the coordinator loop body
(src/server.py lines 125-144): reject a missing or empty screenshot; on type
"init" reject a missing or empty task and otherwise reinitialize the session;
on type "step" advance the session; on any other type fall through with the
session unchanged.  `Except.error` carries the error payload sent before
`continue`. -/
def update_session (session : AgentSession) (data : IncomingData) :
    Except SendMsg AgentSession :=
  match data.screenshot with
  | none => .error (.error "Missing screenshot")
  | some screenshot =>
    if screenshot = "" then .error (.error "Missing screenshot")
    else
      let screen_info := data.screen_info.getD "Unknown Page"
      if data.type = some "init" then
        match data.task with
        | none => .error (.error "Missing task for init")
        | some task =>
          if task = "" then .error (.error "Missing task for init")
          else .ok (session.init_session task screen_info screenshot)
      else if data.type = some "step" then
        .ok (session.step_session screen_info screenshot)
      else .ok session

/-- Sections 3-6 of the coordinator loop body (src/server.py lines 146-177):
call the model on the current context (on failure send an error and leave the
session as is), decode the action (ValueError becomes a finish marker), append
the assistant turn, and build the success payload whose `finished` flag tests
`_metadata == "finish"`. -/
def run_model_and_respond (ext : Externals) (session1 : AgentSession) :
    AgentSession × SendMsg :=
  match ext.infer session1.context with
  | .error e => (session1, .error ("Model inference failed: " ++ e))
  | .ok response =>
    let action_data := parsedOrFinish (ext.parse response.action) response.action
    let session2 := session1.add_assistant_response response.thinking response.action
    (session2,
     .success session2.step_count response.thinking action_data response.action
       (action_data.metadata == some "finish"))

/-- One iteration of the coordinator's receive/respond loop (src/server.py
lines 114-177), as the state transformer on the session: every branch returns
the next session together with exactly one payload sent to the client, and the
loop then waits for the next message (the `continue` statements and the loop
tail both keep the connection open). -/
def websocket_endpoint_iter (ext : Externals) (session : AgentSession)
    (data : IncomingData) : AgentSession × SendMsg :=
  match update_session session data with
  | .error m => (session, m)
  | .ok session1 => run_model_and_respond ext session1

/-- Why the coordinator's message loop ended: the peer disconnected
(WebSocketDisconnect) or some other exception escaped. -/
inductive ExitReason where
  | disconnect
  | otherError (msg : String)
deriving DecidableEq, Repr, Inhabited

/-- The exception handling wrapping the loop (src/server.py lines 184-191):
on WebSocketDisconnect the registry entry is removed via
`manager.disconnect`; on any other exception the handler prints, attempts a
best-effort error send, and returns WITHOUT touching the registry. -/
def websocket_endpoint_exit (manager : ConnectionManager) (client_id : String)
    (r : ExitReason) : ConnectionManager :=
  match r with
  | .disconnect => manager.disconnect client_id
  | .otherError _ => manager

theorem lookupAssoc_insertAssoc {α : Type} (k : String) (v : α)
    (l : List (String × α)) : lookupAssoc k (insertAssoc k v l) = some v := by
  induction l with
  | nil => simp [insertAssoc, lookupAssoc]
  | cons p rest ih =>
    by_cases hk : p.1 = k <;> simp [insertAssoc, lookupAssoc, hk, ih]

theorem lookupAssoc_eraseAssoc {α : Type} (k : String)
    (l : List (String × α)) : lookupAssoc k (eraseAssoc k l) = none := by
  induction l with
  | nil => simp [eraseAssoc, lookupAssoc]
  | cons p rest ih =>
    by_cases hk : p.1 = k <;> simp [eraseAssoc, lookupAssoc, hk, ih]

theorem compact_last_concat (l : List Message) (m : Message) :
    compact_last (l ++ [m]) =
      l ++ [MessageBuilder.remove_images_from_message m] := by
  induction l with
  | nil => rfl
  | cons a t ih =>
    cases t with
    | nil => rfl
    | cons b t2 =>
      simp only [List.cons_append, compact_last, List.append_eq] at ih ⊢
      rw [ih]

theorem eq_dropLast_concat_of_getLast? {l : List Message} {m : Message}
    (h : l.getLast? = some m) : l = l.dropLast ++ [m] := by
  induction l with
  | nil => simp at h
  | cons a t ih =>
    cases t with
    | nil =>
      simp only [List.getLast?_singleton, Option.some.injEq] at h
      simp [h]
    | cons b t2 =>
      rw [List.getLast?_cons_cons] at h
      have ih2 := ih h
      calc a :: b :: t2 = a :: ((b :: t2).dropLast ++ [m]) := by rw [← ih2]
        _ = (a :: b :: t2).dropLast ++ [m] := by simp [List.dropLast]

/-- C1: the claimed invariant — after each step exactly one turn carries image
data, namely the most recent user turn, because the compaction at the start of
step_session strips the previous step's user turn — FAILS on the code.  After
init("t","home","A"), recording the assistant turn, then step("p","B"), the
compaction targets the last turn, which is the assistant turn (a no-op, since
assistant turns carry no image), so the context holds TWO image-bearing turns:
the old user turn still carries "A" alongside the new user turn with "B".  This
contradicts the code's own stated purpose for the compaction (src/server.py
line 62: remove the previous round's image data to bound token growth). -/
theorem c1_two_image_turns_after_step :
    imageTurnCount ((((AgentSession.mk0 "c").init_session "t" "home"
      "A").add_assistant_response "th" "act").step_session "p" "B").context = 2 := by
  decide

/-- C2 counterexample: step_session on a session with empty context does not
leave the session unchanged — it appends a user turn and bumps the step
counter, with no SessionNotInitialized signal anywhere in the code. -/
theorem c2_counterexample :
    ((AgentSession.mk0 "c").step_session "Info" "IMG").context ≠ [] ∧
    ((AgentSession.mk0 "c").step_session "Info" "IMG").step_count ≠ 0 := by
  decide

/-- C2 amended: a step on an uninitialized (empty-context) session is not
rejected: the code skips the compaction, appends the new user turn as the only
turn of the context (no system turn), and increments the step counter. -/
theorem c2_amended_step_on_empty (s : AgentSession) (info shot : String)
    (h : s.context = []) :
    (s.step_session info shot).context =
      [MessageBuilder.create_user_message
        ("** Screen Info **\n\n" ++ info) (some shot)] ∧
    (s.step_session info shot).step_count = s.step_count + 1 := by
  simp [AgentSession.step_session, h, compact_last]

/-- C2 amended, witness at the empty session of client "c". -/
theorem c2_amended_witness :
    ((AgentSession.mk0 "c").step_session "Home" "IMG").context =
      [MessageBuilder.create_user_message
        ("** Screen Info **\n\n" ++ "Home") (some "IMG")] ∧
    ((AgentSession.mk0 "c").step_session "Home" "IMG").step_count =
      (AgentSession.mk0 "c").step_count + 1 :=
  c2_amended_step_on_empty (AgentSession.mk0 "c") "Home" "IMG" rfl

/-- C3 counterexample: a handler run that exits through the generic exception
branch (src/server.py lines 186-191) leaves the registry entry behind — after
connect("c") and an exit with reason otherError, the session entry for "c" is
still present. -/
theorem c3_counterexample :
    lookupAssoc "c" (websocket_endpoint_exit
      ((ConnectionManager.mk [] []).connect 7 "c") "c"
      (ExitReason.otherError "boom")).sessions ≠ none := by
  decide

/-- C3 amended: the registry entry is removed when the loop exits via peer
disconnect (WebSocketDisconnect), but an exit via any other unexpected
exception leaves the connection manager — hence the registry entry — entirely
untouched. -/
theorem c3_amended_cleanup (m : ConnectionManager) (cid : String) :
    lookupAssoc cid
      (websocket_endpoint_exit m cid ExitReason.disconnect).sessions = none ∧
    lookupAssoc cid
      (websocket_endpoint_exit m cid ExitReason.disconnect).active_connections
      = none ∧
    ∀ msg, websocket_endpoint_exit m cid (ExitReason.otherError msg) = m := by
  refine ⟨?_, ?_, fun _ => rfl⟩ <;>
    simp [websocket_endpoint_exit, ConnectionManager.disconnect,
      lookupAssoc_eraseAssoc]

/-- C5 counterexample: connecting twice under the same client id does not
fail and does not keep the existing entry — the second connect replaces the
stored websocket handle (1 becomes 2). -/
theorem c5_counterexample :
    lookupAssoc "c" (((ConnectionManager.mk [] []).connect 1 "c").connect
      2 "c").active_connections ≠ some 1 ∧
    lookupAssoc "c" (((ConnectionManager.mk [] []).connect 1 "c").connect
      2 "c").active_connections = some 2 := by
  decide

/-- C5 amended: ConnectionManager.connect always succeeds; it stores the new
websocket handle and a fresh empty session under the client id, silently
overwriting any existing entry (there is no DuplicateClient rejection in the
code). -/
theorem c5_amended_connect_replaces (m : ConnectionManager) (ws : Nat)
    (cid : String) :
    lookupAssoc cid (m.connect ws cid).active_connections = some ws ∧
    lookupAssoc cid (m.connect ws cid).sessions = some (AgentSession.mk0 cid) :=
  ⟨lookupAssoc_insertAssoc cid ws m.active_connections,
   lookupAssoc_insertAssoc cid (AgentSession.mk0 cid) m.sessions⟩

/-- C7: init_session, from any prior session state, resets the context to
exactly two turns — the system turn carrying SYSTEM_PROMPT followed by a user
turn carrying the task text plus screen info and the screenshot image — and
sets the step counter to 1. -/
theorem c7_init_resets (s : AgentSession) (task info shot : String) :
    (s.init_session task info shot).context =
      [⟨Role.system, [MsgPart.text SYSTEM_PROMPT]⟩,
       ⟨Role.user, [MsgPart.text (task ++ "\n\nScreen Info: " ++ info),
         MsgPart.image shot]⟩] ∧
    (s.init_session task info shot).step_count = 1 :=
  ⟨rfl, rfl⟩

/-- C4 counterexample: a message whose declared type is "foo" (neither init nor
step) with a non-empty screenshot is NOT answered with an error — the
coordinator falls through to the model call, appends an assistant turn (the
session IS mutated) and sends a success payload. -/
theorem c4_counterexample :
    (websocket_endpoint_iter
        ⟨fun _ => Except.ok ⟨"T", "A"⟩, fun _ => Except.ok ⟨none, none⟩⟩
        (AgentSession.mk0 "c") ⟨some "foo", none, some "IMG", none⟩).1
      ≠ AgentSession.mk0 "c" ∧
    (websocket_endpoint_iter
        ⟨fun _ => Except.ok ⟨"T", "A"⟩, fun _ => Except.ok ⟨none, none⟩⟩
        (AgentSession.mk0 "c") ⟨some "foo", none, some "IMG", none⟩).2
      = SendMsg.success 0 "T" ⟨none, none⟩ "A" false := by
  constructor
  · decide
  · decide

/-- C4 amended: on a message whose type is neither "init" nor "step" but whose
screenshot is non-empty, the context-update step is skipped, yet the reasoning
engine IS invoked on the existing context; when it answers, the assistant turn
is appended and a success payload is sent. -/
theorem c4_amended_unknown_type (ext : Externals) (s : AgentSession)
    (d : IncomingData) (sc : String) (r : ModelResponse)
    (h1 : d.screenshot = some sc) (h2 : sc ≠ "")
    (h3 : d.type ≠ some "init") (h4 : d.type ≠ some "step")
    (h5 : ext.infer s.context = Except.ok r) :
    websocket_endpoint_iter ext s d =
      (s.add_assistant_response r.thinking r.action,
       SendMsg.success s.step_count r.thinking
         (parsedOrFinish (ext.parse r.action) r.action) r.action
         ((parsedOrFinish (ext.parse r.action) r.action).metadata
           == some "finish")) := by
  simp [websocket_endpoint_iter, update_session, h1, h2, h3, h4,
    run_model_and_respond, h5, AgentSession.add_assistant_response]

/-- C4 amended, witness: type "bogus", screenshot "IMG", a model answering
("Th", "Act") and a decoder rejecting everything. -/
theorem c4_amended_witness :
    websocket_endpoint_iter
        ⟨fun _ => Except.ok ⟨"Th", "Act"⟩, fun _ => Except.error ()⟩
        (AgentSession.mk0 "w4") ⟨some "bogus", none, some "IMG", none⟩ =
      ((AgentSession.mk0 "w4").add_assistant_response "Th" "Act",
       SendMsg.success (AgentSession.mk0 "w4").step_count "Th"
         (parsedOrFinish (Except.error ()) "Act") "Act"
         ((parsedOrFinish (Except.error ()) "Act").metadata == some "finish")) :=
  c4_amended_unknown_type
    ⟨fun _ => Except.ok ⟨"Th", "Act"⟩, fun _ => Except.error ()⟩
    (AgentSession.mk0 "w4") ⟨some "bogus", none, some "IMG", none⟩
    "IMG" ⟨"Th", "Act"⟩ rfl (by decide) (by decide) (by decide) rfl

/-- C6: a message (init or step) with a missing or empty screenshot is answered
with the "Missing screenshot" error and the session is returned unchanged; an
init message with a missing or empty task is likewise answered with an error
payload with the session unchanged.  The loop body always returns a next state,
so the connection stays open awaiting the next message. -/
theorem c6_invalid_fields_rejected (ext : Externals) (s : AgentSession)
    (d : IncomingData) :
    ((d.screenshot = none ∨ d.screenshot = some "") →
      websocket_endpoint_iter ext s d = (s, SendMsg.error "Missing screenshot")) ∧
    (d.type = some "init" → (d.task = none ∨ d.task = some "") →
      ∃ msg, websocket_endpoint_iter ext s d = (s, SendMsg.error msg)) := by
  constructor
  · rintro (h | h) <;> simp [websocket_endpoint_iter, update_session, h]
  · intro ht htask
    cases hscr : d.screenshot with
    | none =>
      exact ⟨"Missing screenshot",
        by simp [websocket_endpoint_iter, update_session, hscr]⟩
    | some sc =>
      by_cases hsc : sc = ""
      · exact ⟨"Missing screenshot",
          by simp [websocket_endpoint_iter, update_session, hscr, hsc]⟩
      · refine ⟨"Missing task for init", ?_⟩
        rcases htask with h | h <;>
          simp [websocket_endpoint_iter, update_session, hscr, hsc, ht, h]

/-- C6 witness: a step message with no screenshot field, and an init message
with a screenshot but no task field, each leave the session unchanged and give
an error payload. -/
theorem c6_witness :
    websocket_endpoint_iter
        ⟨fun _ => Except.error "down", fun _ => Except.error ()⟩
        (AgentSession.mk0 "w6") ⟨some "step", none, none, none⟩ =
      (AgentSession.mk0 "w6", SendMsg.error "Missing screenshot") ∧
    ∃ msg, websocket_endpoint_iter
        ⟨fun _ => Except.error "down", fun _ => Except.error ()⟩
        (AgentSession.mk0 "w6") ⟨some "init", none, some "IMG", none⟩ =
      (AgentSession.mk0 "w6", SendMsg.error msg) :=
  ⟨(c6_invalid_fields_rejected
      ⟨fun _ => Except.error "down", fun _ => Except.error ()⟩
      (AgentSession.mk0 "w6") ⟨some "step", none, none, none⟩).1 (Or.inl rfl),
   (c6_invalid_fields_rejected
      ⟨fun _ => Except.error "down", fun _ => Except.error ()⟩
      (AgentSession.mk0 "w6") ⟨some "init", none, some "IMG", none⟩).2
      rfl (Or.inl rfl)⟩

/-- C8: when the action decoder rejects the model's action text (ValueError),
the coordinator synthesizes the finish dictionary, appends the assistant turn
normally, and sends a success payload whose finished flag is true and whose
raw_response is the model's action text verbatim. -/
theorem c8_unrecognized_action_is_finish (ext : Externals) (s1 : AgentSession)
    (r : ModelResponse) (h1 : ext.infer s1.context = Except.ok r)
    (h2 : ext.parse r.action = Except.error ()) :
    run_model_and_respond ext s1 =
      (s1.add_assistant_response r.thinking r.action,
       SendMsg.success s1.step_count r.thinking
         ⟨some "finish", some r.action⟩ r.action true) := by
  simp [run_model_and_respond, h1, parsedOrFinish, h2,
    AgentSession.add_assistant_response]

/-- C8 witness: model answer ("Th8", "free text") with a decoder that rejects
it. -/
theorem c8_witness :
    run_model_and_respond
        ⟨fun _ => Except.ok ⟨"Th8", "free text"⟩, fun _ => Except.error ()⟩
        (AgentSession.mk0 "w8") =
      ((AgentSession.mk0 "w8").add_assistant_response "Th8" "free text",
       SendMsg.success (AgentSession.mk0 "w8").step_count "Th8"
         ⟨some "finish", some "free text"⟩ "free text" true) :=
  c8_unrecognized_action_is_finish
    ⟨fun _ => Except.ok ⟨"Th8", "free text"⟩, fun _ => Except.error ()⟩
    (AgentSession.mk0 "w8") ⟨"Th8", "free text"⟩ rfl rfl

/-- C9: on a validated step message whose model call fails, the coordinator
answers with an error payload and the session is exactly the result of the
context update: the new user turn is retained as the last turn and no
assistant turn is appended; a later step message (with a model call that
answers) still succeeds, and the unanswered user turn is carried forward in
the context in image-stripped form. -/
theorem c9_model_failure_retains_user_turn (ext ext2 : Externals)
    (s : AgentSession) (d d2 : IncomingData) (sc sc2 e : String)
    (r2 : ModelResponse)
    (hd : d.type = some "step") (hs : d.screenshot = some sc) (hs0 : sc ≠ "")
    (hinf : ext.infer
      (s.step_session (d.screen_info.getD "Unknown Page") sc).context
      = Except.error e)
    (hd2 : d2.type = some "step") (hs2 : d2.screenshot = some sc2)
    (hs20 : sc2 ≠ "")
    (hinf2 : ext2.infer
      ((s.step_session (d.screen_info.getD "Unknown Page") sc).step_session
        (d2.screen_info.getD "Unknown Page") sc2).context = Except.ok r2) :
    websocket_endpoint_iter ext s d =
      (s.step_session (d.screen_info.getD "Unknown Page") sc,
       SendMsg.error ("Model inference failed: " ++ e)) ∧
    (s.step_session (d.screen_info.getD "Unknown Page") sc).context.getLast? =
      some (MessageBuilder.create_user_message
        ("** Screen Info **\n\n" ++ d.screen_info.getD "Unknown Page")
        (some sc)) ∧
    (websocket_endpoint_iter ext2
      (websocket_endpoint_iter ext s d).1 d2).2.isSuccess = true ∧
    MessageBuilder.remove_images_from_message
        (MessageBuilder.create_user_message
          ("** Screen Info **\n\n" ++ d.screen_info.getD "Unknown Page")
          (some sc))
      ∈ (websocket_endpoint_iter ext2
          (websocket_endpoint_iter ext s d).1 d2).1.context := by
  have h1 : websocket_endpoint_iter ext s d =
      (s.step_session (d.screen_info.getD "Unknown Page") sc,
       SendMsg.error ("Model inference failed: " ++ e)) := by
    simp [websocket_endpoint_iter, update_session, hd, hs, hs0,
      run_model_and_respond, hinf]
  refine ⟨h1, ?_, ?_, ?_⟩
  · simp [AgentSession.step_session]
  · rw [h1]
    simp [websocket_endpoint_iter, update_session, hd2, hs2, hs20,
      run_model_and_respond, hinf2, SendMsg.isSuccess]
  · rw [h1]
    simp [AgentSession.step_session, compact_last_concat] at hinf2
    simp [websocket_endpoint_iter, update_session, hd2, hs2, hs20,
      run_model_and_respond, hinf2, AgentSession.add_assistant_response,
      AgentSession.step_session, compact_last_concat]

/-- C9 witness: two step exchanges on a fresh session, the first with a failing
model, the second with a model answering ("T9", "A9"). -/
theorem c9_witness :
    websocket_endpoint_iter
        ⟨fun _ => Except.error "boom", fun _ => Except.error ()⟩
        (AgentSession.mk0 "w9") ⟨some "step", none, some "S1", none⟩ =
      ((AgentSession.mk0 "w9").step_session
        ((⟨some "step", none, some "S1", none⟩ :
          IncomingData).screen_info.getD "Unknown Page") "S1",
       SendMsg.error ("Model inference failed: " ++ "boom")) ∧
    ((AgentSession.mk0 "w9").step_session
      ((⟨some "step", none, some "S1", none⟩ :
        IncomingData).screen_info.getD "Unknown Page") "S1").context.getLast? =
      some (MessageBuilder.create_user_message
        ("** Screen Info **\n\n" ++ (⟨some "step", none, some "S1", none⟩ :
          IncomingData).screen_info.getD "Unknown Page") (some "S1")) ∧
    (websocket_endpoint_iter
        ⟨fun _ => Except.ok ⟨"T9", "A9"⟩, fun _ => Except.error ()⟩
        (websocket_endpoint_iter
          ⟨fun _ => Except.error "boom", fun _ => Except.error ()⟩
          (AgentSession.mk0 "w9") ⟨some "step", none, some "S1", none⟩).1
        ⟨some "step", none, some "S2", none⟩).2.isSuccess = true ∧
    MessageBuilder.remove_images_from_message
        (MessageBuilder.create_user_message
          ("** Screen Info **\n\n" ++ (⟨some "step", none, some "S1", none⟩ :
            IncomingData).screen_info.getD "Unknown Page") (some "S1"))
      ∈ (websocket_endpoint_iter
          ⟨fun _ => Except.ok ⟨"T9", "A9"⟩, fun _ => Except.error ()⟩
          (websocket_endpoint_iter
            ⟨fun _ => Except.error "boom", fun _ => Except.error ()⟩
            (AgentSession.mk0 "w9") ⟨some "step", none, some "S1", none⟩).1
          ⟨some "step", none, some "S2", none⟩).1.context :=
  c9_model_failure_retains_user_turn
    ⟨fun _ => Except.error "boom", fun _ => Except.error ()⟩
    ⟨fun _ => Except.ok ⟨"T9", "A9"⟩, fun _ => Except.error ()⟩
    (AgentSession.mk0 "w9")
    ⟨some "step", none, some "S1", none⟩ ⟨some "step", none, some "S2", none⟩
    "S1" "S2" "boom" ⟨"T9", "A9"⟩
    rfl rfl (by decide) rfl rfl rfl (by decide) rfl

/-- C10: step_session on a non-empty context leaves every turn but the last
unchanged and in order (they form the dropLast prefix verbatim), replaces the
turn that was last at entry by a turn differing only in the removal of its
image parts (same role, content filtered to its text parts in order), appends
exactly one new user turn at the end, and increments the step counter by 1. -/
theorem c10_step_frame (s : AgentSession) (info shot : String) (m : Message)
    (h : s.context.getLast? = some m) :
    (s.step_session info shot).context =
      s.context.dropLast ++
        [MessageBuilder.remove_images_from_message m,
         MessageBuilder.create_user_message
           ("** Screen Info **\n\n" ++ info) (some shot)] ∧
    (MessageBuilder.remove_images_from_message m).role = m.role ∧
    (MessageBuilder.remove_images_from_message m).content =
      m.content.filter MsgPart.isText ∧
    (s.step_session info shot).step_count = s.step_count + 1 := by
  have hdecomp := eq_dropLast_concat_of_getLast? h
  have hc : compact_last s.context =
      s.context.dropLast ++ [MessageBuilder.remove_images_from_message m] := by
    conv_lhs => rw [hdecomp]
    rw [compact_last_concat]
  refine ⟨?_, rfl, rfl, rfl⟩
  simp [AgentSession.step_session, hc]

/-- C10 witness: a session whose context is a system turn followed by a user
turn carrying an image. -/
theorem c10_witness :
    ((⟨"w10", [⟨Role.system, [MsgPart.text "sys"]⟩,
        ⟨Role.user, [MsgPart.text "x", MsgPart.image "I"]⟩], 3⟩ :
        AgentSession).step_session "p" "J").context =
      [⟨Role.system, [MsgPart.text "sys"]⟩,
       ⟨Role.user, [MsgPart.text "x", MsgPart.image "I"]⟩].dropLast ++
        [MessageBuilder.remove_images_from_message
          ⟨Role.user, [MsgPart.text "x", MsgPart.image "I"]⟩,
         MessageBuilder.create_user_message
           ("** Screen Info **\n\n" ++ "p") (some "J")] ∧
    (MessageBuilder.remove_images_from_message
      ⟨Role.user, [MsgPart.text "x", MsgPart.image "I"]⟩).role =
      (⟨Role.user, [MsgPart.text "x", MsgPart.image "I"]⟩ : Message).role ∧
    (MessageBuilder.remove_images_from_message
      ⟨Role.user, [MsgPart.text "x", MsgPart.image "I"]⟩).content =
      (⟨Role.user, [MsgPart.text "x", MsgPart.image "I"]⟩ :
        Message).content.filter MsgPart.isText ∧
    ((⟨"w10", [⟨Role.system, [MsgPart.text "sys"]⟩,
        ⟨Role.user, [MsgPart.text "x", MsgPart.image "I"]⟩], 3⟩ :
        AgentSession).step_session "p" "J").step_count = 3 + 1 :=
  c10_step_frame
    ⟨"w10", [⟨Role.system, [MsgPart.text "sys"]⟩,
      ⟨Role.user, [MsgPart.text "x", MsgPart.image "I"]⟩], 3⟩
    "p" "J" ⟨Role.user, [MsgPart.text "x", MsgPart.image "I"]⟩ rfl
